import Mathlib

/-!
Shallow embedding of the plotburn-movie-api enrichment pipeline and its
relational store, translated from the TypeScript source:

* `src/services/database.ts` (unnamed/part_007): `DBExtraction`, `DBRoast`,
  `insertExtraction`, `getLatestExtraction`, `deactivateOldRoasts`,
  `upsertRoast`, `getActiveRoast`, `clearCategory`, `addMovieToCategory`,
  `toggleRoastFeatured`.
* `src/handlers/movieRoast.ts`: `hasValidEvidence`, `hasValidContent`,
  `buildMovieTruthFromExtraction`, `getOrCreateTruth`, `handleMovieRoast`.
* `src/services/cron.ts`: `CronTracker.startRun`, `updateProgress`,
  `completeRun`, `failRun`.
* `src/handlers/cron.ts` (unnamed/part_003, queue-based variant):
  `runDailyRoastGeneration`.
* `src/handlers/nowPlaying.ts` (batched variant): `handleNowPlaying`.
* `src/index.ts` queue consumer (`handleMovieQueueBatch`).

Conventions of the embedding:
* JSON text columns are modelled at the level of parsed JSON values: a
  column is `absent` (SQL NULL or the empty string, both falsy in JS),
  `malformed` (a string on which `JSON.parse` throws), or `value j`
  (a string parsing to the JSON value `j`).  `JSON.stringify` followed by
  `JSON.parse` is the identity on such values, so a freshly stringified
  value is stored as `value j` again.
* The D1 database is explicit state; each prepared-statement `.run()` is
  one state transition.  `env.plotburn_db.batch [...]` is a single
  transition (Cloudflare D1 executes a batch transactionally).
* External providers (Brave search, Grok extraction, Claude generation)
  are oracles supplied as a `Providers` structure; a successful call
  returns the oracle's value and is counted in a `Calls` record.
* Timestamps are naturals; the store carries a monotone clock standing
  for `Date.now()`.
-/

/-- A JSON value, as produced by `JSON.parse`. -/
inductive Json where
  | null
  | bool (b : Bool)
  | num (n : Int)
  | str (s : String)
  | arr (elems : List Json)
  | obj (fields : List (String × Json))

namespace Json

/-- JavaScript truthiness of a parsed JSON value (`null`, `false`, `0` and
`""` are falsy; arrays and objects are always truthy). -/
def truthy : Json → Bool
  | .null => false
  | .bool b => b
  | .num n => n != 0
  | .str s => s != ""
  | .arr _ => true
  | .obj _ => true

/-- Property access `j.k`: defined only on objects (first binding wins);
on any other value it yields JS `undefined`, modelled as `none`. -/
def getField : Json → String → Option Json
  | .obj fields, k => (fields.find? (fun p => p.1 == k)).map (·.2)
  | _, _ => none

/-- JS `.length`: arrays and strings have a length, other values give
`undefined` (`none`). -/
def jsLength : Json → Option Nat
  | .arr xs => some xs.length
  | .str s => some s.length
  | _ => none

end Json

/-- Truthiness of an optional field access (`undefined` is falsy). -/
def optTruthy : Option Json → Bool
  | none => false
  | some j => j.truthy

/-- The JS test `x?.length > 0` for an optional field `x`
(`undefined > 0` is `false`). -/
def optLenPos : Option Json → Bool
  | none => false
  | some j =>
    match j.jsLength with
    | none => false
    | some n => n > 0

/-- A TEXT column holding JSON, at parse-level resolution. `absent` covers
SQL NULL and the empty string (both falsy in JS, so they fail the
`!dbExtraction.x_json` guard); `malformed` is a non-empty string on which
`JSON.parse` throws. -/
inductive Column where
  | absent
  | malformed
  | value (j : Json)

/-- `JSON.parse` of a column already known to parse; total for convenience
(only consulted on `value` columns). -/
def Column.parsed : Column → Json
  | .value j => j
  | _ => Json.null

/-- Token/cost usage counters carried on an extraction record. -/
structure Usage where
  prompt_tokens : Nat
  completion_tokens : Nat
  total_tokens : Nat
  total_cost : Nat
deriving Repr, DecidableEq

def Usage.zero : Usage := ⟨0, 0, 0, 0⟩

/-- A row of the `extractions` table (`DBExtraction` in database.ts). -/
structure DBExtraction where
  id : Nat
  movie_id : Nat
  source : String
  model : String
  fetched_at : Nat
  content_json : Column
  evidence_json : Column
  citations_json : Option (List String)
  usage : Usage

/-- The column-level body of `hasValidEvidence`: guard on the falsy/
unparseable column, then `parsed && (parsed.results?.length > 0 ||
parsed.faq?.length > 0 || parsed.infobox)`. -/
def evidenceColumnValid : Column → Bool
  | .absent => false
  | .malformed => false
  | .value parsed =>
    parsed.truthy &&
      (optLenPos (parsed.getField "results") ||
       optLenPos (parsed.getField "faq") ||
       optTruthy (parsed.getField "infobox"))

/-- The column-level body of `hasValidContent`: guard, then
`parsed && (parsed.title || parsed.plot || parsed.reception)`. -/
def contentColumnValid : Column → Bool
  | .absent => false
  | .malformed => false
  | .value parsed =>
    parsed.truthy &&
      (optTruthy (parsed.getField "title") ||
       optTruthy (parsed.getField "plot") ||
       optTruthy (parsed.getField "reception"))

/-- movieRoast.ts `hasValidEvidence`: the record exists and its evidence
column passes the shape check. -/
def hasValidEvidence : Option DBExtraction → Bool
  | none => false
  | some e => evidenceColumnValid e.evidence_json

/-- movieRoast.ts `hasValidContent`: the record exists and its content
column passes the shape check. -/
def hasValidContent : Option DBExtraction → Bool
  | none => false
  | some e => contentColumnValid e.content_json

/-!
Spec-side shape predicates for claim C6, written from the spec's words:
"the stored evidence JSON parses and has at least one search result, at
least one FAQ entry, or an infobox" and "the stored content JSON parses
and has a title, a plot, or a reception section".  Stored payloads are
declared in the source as `ExtractedMovieData` (results and faq are
arrays, infobox an optional object) and `GrokExtractionResponse`
(title a string, plot and reception objects), so the comparison is made
for payloads of those declared shapes.
-/

/-- An optional field is, when present, an array. -/
def schemaArrOk : Option Json → Bool
  | none => true
  | some (Json.arr _) => true
  | some _ => false

/-- An optional field is, when present, an object. -/
def schemaObjOk : Option Json → Bool
  | none => true
  | some (Json.obj _) => true
  | some _ => false

/-- An optional field is, when present, a string. -/
def schemaStrOk : Option Json → Bool
  | none => true
  | some (Json.str _) => true
  | some _ => false

/-- Spec-side test: the field is a non-empty array ("at least one search
result" / "at least one FAQ entry"). -/
def specArrNonempty : Option Json → Bool
  | some (Json.arr xs) => xs.length > 0
  | _ => false

/-- Spec-side test: the field is present as an object ("an infobox",
"a plot", "a reception section"). -/
def specObjPresent : Option Json → Bool
  | some (Json.obj _) => true
  | _ => false

/-- Spec-side test: the field is a non-empty string ("a title"). -/
def specNonemptyStr : Option Json → Bool
  | some (Json.str t) => t != ""
  | _ => false

/-- The evidence payload conforms to the declared `ExtractedMovieData`
shape: `results` and `faq`, when present, are arrays, and `infobox`, when
present, is an object. -/
def evidenceSchemaOk (j : Json) : Bool :=
  schemaArrOk (j.getField "results") && schemaArrOk (j.getField "faq") &&
    schemaObjOk (j.getField "infobox")

/-- Spec predicate: the parsed evidence has at least one search result,
at least one FAQ entry, or an infobox. -/
def specEvidenceShape (j : Json) : Bool :=
  specArrNonempty (j.getField "results") || specArrNonempty (j.getField "faq") ||
    specObjPresent (j.getField "infobox")

/-- The content payload conforms to the declared `GrokExtractionResponse`
shape: `title`, when present, is a string, and `plot` and `reception`,
when present, are objects. -/
def contentSchemaOk (j : Json) : Bool :=
  schemaStrOk (j.getField "title") && schemaObjOk (j.getField "plot") &&
    schemaObjOk (j.getField "reception")

/-- Spec predicate: the parsed content has a (non-empty) title, a plot
section, or a reception section. -/
def specContentShape (j : Json) : Bool :=
  specNonemptyStr (j.getField "title") || specObjPresent (j.getField "plot") ||
    specObjPresent (j.getField "reception")

/-- A row of the `roasts` table (`DBRoast` in database.ts); `is_featured`
and `is_active` are SQLite 0/1 integers. -/
structure DBRoast where
  id : Nat
  movie_id : Nat
  roast_json : Json
  language : String
  created_at : Nat
  is_featured : Nat
  is_active : Nat

/-- A row of the `movies` table, restricted to the columns the verified
operations read. -/
structure DBMovieRow where
  id : Nat
  title : String
deriving Repr, DecidableEq

/-- A row of the `movie_categories` junction table; the table's primary
key is `(movie_id, category)`. -/
structure CatRow where
  movie_id : Nat
  category : String
  added_at : Nat
deriving Repr, DecidableEq

/-- The D1 database state touched by the verified operations, with
auto-increment counters and a monotone clock standing for `Date.now()`. -/
structure DB where
  movies : List DBMovieRow
  categories : List CatRow
  extractions : List DBExtraction
  roasts : List DBRoast
  nextExtractionId : Nat
  nextRoastId : Nat
  clock : Nat

-- ===== extraction operations (database.ts) =====

/-- `getLatestExtraction`: `SELECT ... WHERE movie_id = ? ORDER BY
fetched_at DESC LIMIT 1`.  Rows are kept newest-insertion-first; among
rows of maximal `fetched_at` the most recently inserted wins. -/
def getLatestExtraction (db : DB) (movieId : Nat) : Option DBExtraction :=
  match db.extractions.filter (fun e => e.movie_id == movieId) with
  | [] => none
  | x :: xs => some (xs.foldl (fun a b => if b.fetched_at > a.fetched_at then b else a) x)

/-- `insertExtraction`: INSERT of one new row; `content`/`evidence` are
`JSON.stringify`d JS values, which parse back to themselves, and
`fetched_at` is `Date.now()`.  Returns `last_row_id`. -/
def insertExtraction (db : DB) (movieId : Nat) (source model : String)
    (content evidence : Json) (citations : List String) (usage : Usage) :
    DB × Nat :=
  ({ db with
      extractions :=
        { id := db.nextExtractionId, movie_id := movieId, source := source,
          model := model, fetched_at := db.clock,
          content_json := Column.value content,
          evidence_json := Column.value evidence,
          citations_json := some citations, usage := usage } :: db.extractions,
      nextExtractionId := db.nextExtractionId + 1,
      clock := db.clock + 1 },
   db.nextExtractionId)

-- ===== roast operations (database.ts) =====

/-- The SQL predicate `movie_id = ? AND language = ? AND is_active = 1`. -/
def isActiveFor (movieId : Nat) (language : String) (r : DBRoast) : Bool :=
  r.movie_id == movieId && r.language == language && r.is_active == 1

/-- `deactivateOldRoasts`: `UPDATE roasts SET is_active = 0 WHERE
movie_id = ? AND language = ? AND is_active = 1`, one statement. -/
def deactivateOldRoasts (db : DB) (movieId : Nat) (language : String) : DB :=
  { db with
      roasts := db.roasts.map (fun r =>
        if isActiveFor movieId language r then { r with is_active := 0 } else r) }

/-- The INSERT statement of `upsertRoast`: a new row with
`is_featured = 0, is_active = 1`; returns `last_row_id`. -/
def insertActiveRoast (db : DB) (movieId : Nat) (roast : Json)
    (language : String) : DB × Nat :=
  ({ db with
      roasts :=
        { id := db.nextRoastId, movie_id := movieId, roast_json := roast,
          language := language, created_at := db.clock,
          is_featured := 0, is_active := 1 } :: db.roasts,
      nextRoastId := db.nextRoastId + 1,
      clock := db.clock + 1 },
   db.nextRoastId)

/-- `upsertRoast`: two sequential statements — deactivate the old active
rows for `(movie_id, language)`, then insert the new active row. -/
def upsertRoast (db : DB) (movieId : Nat) (roast : Json)
    (language : String := "en") : DB × Nat :=
  insertActiveRoast (deactivateOldRoasts db movieId language) movieId roast language

/-- `getActiveRoast` (and `getRoast`, which delegates to it): `.first()`
of the rows with `movie_id = ? AND language = ? AND is_active = 1`. -/
def getActiveRoast (db : DB) (movieId : Nat) (language : String := "en") :
    Option DBRoast :=
  db.roasts.find? (isActiveFor movieId language)

/-- `toggleRoastFeatured`: flips `is_featured` for the row with the given
id; `is_active` is untouched. -/
def toggleRoastFeatured (db : DB) (roastId : Nat) : DB :=
  { db with
      roasts := db.roasts.map (fun r =>
        if r.id == roastId then
          { r with is_featured := if r.is_featured == 1 then 0 else 1 }
        else r) }

/-- Number of active roast rows for a `(movie id, language)` pair. -/
def activeCount (db : DB) (movieId : Nat) (language : String) : Nat :=
  (db.roasts.filter (isActiveFor movieId language)).length

/-- The queue consumer's existence check: `SELECT id FROM roasts WHERE
movie_id = ? AND is_active = 1` (no language filter). -/
def hasAnyActiveRoast (db : DB) (movieId : Nat) : Bool :=
  db.roasts.any (fun r => r.movie_id == movieId && r.is_active == 1)

-- ===== movie / category operations =====

/-- The fields of a fetched catalog item that the verified operations
consume (`NowPlayingMovie` / queue message payload). -/
structure MovieItem where
  id : Nat
  title : String
deriving Repr, DecidableEq

/-- `upsertMovie`: `INSERT ... ON CONFLICT(id) DO UPDATE`, restricted to
the modelled columns. -/
def upsertMovie (db : DB) (m : MovieItem) : DB :=
  { db with
      movies :=
        if db.movies.any (fun r => r.id == m.id) then
          db.movies.map (fun r => if r.id == m.id then ⟨m.id, m.title⟩ else r)
        else ⟨m.id, m.title⟩ :: db.movies }

/-- `INSERT OR IGNORE INTO movie_categories`: ignored when a row with the
primary key `(movie_id, category)` already exists. -/
def insertOrIgnoreCategory (rows : List CatRow) (movieId : Nat)
    (category : String) (now : Nat) : List CatRow :=
  if rows.any (fun r => r.movie_id == movieId && r.category == category) then rows
  else rows ++ [⟨movieId, category, now⟩]

/-- The atomic category-refresh batch of `handleNowPlaying`: one
`db.batch` holding the DELETE of the category's rows followed by an
`INSERT OR IGNORE` per fetched id.  D1 executes the batch
transactionally, so it is one state transition. -/
def refreshCategoryBatch (rows : List CatRow) (category : String)
    (ids : List Nat) (now : Nat) : List CatRow :=
  (ids.foldl (fun acc i => insertOrIgnoreCategory acc i category now)
    (rows.filter (fun r => !(r.category == category))))

/-- The movie ids currently in a category (`getMoviesByCategory`
membership, ignoring pagination). -/
def categoryMembers (rows : List CatRow) (category : String) : List Nat :=
  (rows.filter (fun r => r.category == category)).map (·.movie_id)

/-- `handleNowPlaying` (batched variant): upsert each fetched movie, then
atomically replace the `now_playing` membership with the successfully
upserted ids (all upserts succeed in the failure-free model). -/
def handleNowPlaying (db : DB) (fetched : List MovieItem) : DB :=
  let db1 := fetched.foldl (fun d m => upsertMovie d m) db
  { db1 with
      categories :=
        refreshCategoryBatch db1.categories "now_playing"
          (fetched.map (·.id)) db1.clock }

-- ===== the enrichment pipeline (movieRoast.ts) =====

/-- The assembled Truth value returned by the pipeline (`MovieTruth`
restricted to the modelled fields; `costEstimateINR` is the constant 0). -/
structure MovieTruth where
  source : String
  fetchedAt : Nat
  model : String
  citations : List String
  content : Column
  usage : Usage

/-- `buildMovieTruthFromExtraction`: assembles a Truth directly from a
stored record; `content` is the raw `content_json` column. -/
def buildMovieTruthFromExtraction (e : DBExtraction) : MovieTruth :=
  { source := e.source, fetchedAt := e.fetched_at, model := e.model,
    citations := e.citations_json.getD [], content := e.content_json,
    usage := e.usage }

/-- External collaborators, as deterministic oracles of a failure-free
run: the Brave evidence provider, the Grok extraction provider, and the
Claude generation provider. -/
structure Providers where
  braveEvidence : Nat → Json
  braveCitations : Nat → List String
  grokExtraction : Json → Json
  grokUsage : Json → Usage
  generate : Nat → MovieTruth → Json

/-- Counters of external-provider invocations made by one operation. -/
structure Calls where
  brave : Nat
  grok : Nat
  generation : Nat
deriving Repr, DecidableEq

def Calls.zero : Calls := ⟨0, 0, 0⟩

/-- `getOrCreateTruth` (movieRoast.ts): one read of the latest extraction,
classification, conditional fetches, at most one persist, and the
assembled Truth.  Returns the Truth, the successor store and the call
counters. -/
def getOrCreateTruth (P : Providers) (db : DB) (movieId : Nat) :
    MovieTruth × DB × Calls :=
  let dbExtraction := getLatestExtraction db movieId
  let hasEvidence := hasValidEvidence dbExtraction
  let hasContent := hasValidContent dbExtraction
  match dbExtraction, hasEvidence && hasContent with
  | some e, true =>
      -- step 2: full cache hit, zero external calls
      (buildMovieTruthFromExtraction e, db, Calls.zero)
  | dbExtraction, _ =>
      -- step 3: evidence — reuse the stored payload or fetch from Brave
      let evidenceStep : Json × List String × Nat :=
        match dbExtraction, hasEvidence with
        | some e, true => (e.evidence_json.parsed, e.citations_json.getD [], 0)
        | _, _ => (P.braveEvidence movieId, P.braveCitations movieId, 1)
      let evidence := evidenceStep.1
      let citations := evidenceStep.2.1
      -- step 4: content — reuse the stored payload or extract with Grok
      let contentStep : Json × Usage × Nat :=
        match dbExtraction, hasContent with
        | some e, true => (e.content_json.parsed, e.usage, 0)
        | _, _ => (P.grokExtraction evidence, P.grokUsage evidence, 1)
      let extraction := contentStep.1
      let usage := contentStep.2.1
      -- step 5: persist exactly when something was fetched
      let db1 :=
        if !hasEvidence || !hasContent then
          (insertExtraction db movieId "grok-extraction"
            "grok-4-1-fast-non-reasoning" extraction evidence citations usage).1
        else db
      -- step 6: assembled Truth (content is the stringified extraction)
      ({ source := "grok-extraction", fetchedAt := db.clock,
         model := "grok-4-1-fast-non-reasoning", citations := citations,
         content := Column.value extraction, usage := usage },
       db1,
       { brave := evidenceStep.2.2, grok := contentStep.2.2, generation := 0 })

/-- `handleMovieRoast`: serve the active roast from the store when one
exists (no provider calls); otherwise upsert the movie, run the pipeline,
generate the roast and persist it as the new active version.  The
watch-provider side fetch is auxiliary — its failure is swallowed and it
touches neither the roast path nor the counters. -/
def handleMovieRoast (P : Providers) (db : DB) (m : MovieItem) : DB × Calls :=
  match getActiveRoast db m.id "en" with
  | some _ => (db, Calls.zero)
  | none =>
      let db1 := upsertMovie db m
      let r := getOrCreateTruth P db1 m.id
      let truth := r.1
      let db2 := r.2.1
      let calls := r.2.2
      let roast := P.generate m.id truth
      let db3 := (upsertRoast db2 m.id roast "en").1
      (db3, { calls with generation := calls.generation + 1 })

/-- One message of `handleMovieQueueBatch`: the cheap existence check
(`movie_id = ? AND is_active = 1`, any language) acknowledges without
invoking the pipeline; otherwise the full roast path runs and the message
is acknowledged on success. The returned Bool is the ack. -/
def processQueueMessage (P : Providers) (db : DB) (m : MovieItem) :
    DB × Calls × Bool :=
  if hasAnyActiveRoast db m.id then (db, Calls.zero, true)
  else
    let r := handleMovieRoast P db m
    (r.1, r.2, true)

-- ===== job lock & tracker (services/cron.ts) =====

/-- A row of the `cron_runs` table. -/
structure CronRun where
  id : Nat
  job_name : String
  started_at : Nat
  finished_at : Option Nat
  duration_ms : Option Nat
  status : String
  cursor : Option String
  error : Option String
  movies_roasted_count : Option Nat
  movie_titles : Option String
deriving Repr, DecidableEq

/-- The `cron_runs` table with its auto-increment counter (ids start at 1,
as SQLite `last_row_id` of the first insert) and clock. -/
structure CronState where
  runs : List CronRun
  nextRunId : Nat
  clock : Nat
deriving Repr, DecidableEq

/-- Whether a running row exists for the job (`SELECT id FROM cron_runs
WHERE job_name = ? AND status = 'running' LIMIT 1`). -/
def hasRunningRow (s : CronState) (jobName : String) : Bool :=
  s.runs.any (fun r => r.job_name == jobName && r.status == "running")

/-- `CronTracker.startRun`: check-then-insert.  When a running row exists
the thrown error is re-raised (its message contains "already running") as
`Job '<name>' is already running` and no row is written; otherwise one
running row is inserted and its `last_row_id` returned. -/
def startRun (s : CronState) (jobName : String) :
    CronState × Except String Nat :=
  if hasRunningRow s jobName then
    (s, Except.error ("Job '" ++ jobName ++ "' is already running"))
  else
    ({ runs :=
        { id := s.nextRunId, job_name := jobName, started_at := s.clock,
          finished_at := none, duration_ms := none, status := "running",
          cursor := none, error := none, movies_roasted_count := none,
          movie_titles := none } :: s.runs,
       nextRunId := s.nextRunId + 1, clock := s.clock + 1 },
     Except.ok s.nextRunId)

/-- `CronTracker.updateProgress`: UPDATE of the progress columns of the
row with the given id. -/
def updateProgress (s : CronState) (runId : Nat) (titles : List String)
    (count : Nat) : CronState :=
  { s with
      runs := s.runs.map (fun r =>
        if r.id == runId then
          { r with movies_roasted_count := some count,
                   movie_titles := some (String.intercalate ", " titles) }
        else r) }

/-- `CronTracker.completeRun`: reads `started_at`, computes the duration
as `now - started_at`, and sets the terminal success columns. -/
def completeRun (s : CronState) (runId : Nat) (cursor : Option String) :
    CronState :=
  { s with
      runs := s.runs.map (fun r =>
        if r.id == runId then
          { r with finished_at := some s.clock,
                   duration_ms := some (s.clock - r.started_at),
                   status := "success", cursor := cursor }
        else r),
      clock := s.clock + 1 }

/-- `CronTracker.failRun`: same duration computation, terminal failed
status, records the error text. -/
def failRun (s : CronState) (runId : Nat) (errorMessage : String) :
    CronState :=
  { s with
      runs := s.runs.map (fun r =>
        if r.id == runId then
          { r with finished_at := some s.clock,
                   duration_ms := some (s.clock - r.started_at),
                   status := "failed", error := some errorMessage }
        else r),
      clock := s.clock + 1 }

/-- Look up a run row by id. -/
def findRun (s : CronState) (runId : Nat) : Option CronRun :=
  s.runs.find? (fun r => r.id == runId)

-- ===== orchestration entry point (handlers/cron.ts, queue variant) =====

/-- JS `Map` merge of the two category lists: ids keep the position of
their first occurrence, later occurrences overwrite the value. -/
def dedupMovies (nowPlaying popular : List MovieItem) : List MovieItem :=
  (nowPlaying ++ popular).foldl
    (fun acc m =>
      if acc.any (fun x => x.id == m.id) then
        acc.map (fun x => if x.id == m.id then m else x)
      else acc ++ [m])
    []

/-- Outcome of one orchestration trigger. -/
inductive RunOutcome where
  | skipped
  | success (queued : Nat)
  | errored (message : String)
deriving Repr, DecidableEq

/-- `runDailyRoastGeneration` (queue-based variant): acquire the lock,
fetch and merge the two catalog lists, enqueue the unique items, record
progress, complete the run.  A lock refusal returns the distinct
`skipped` outcome without touching the table.  `progressFailure` injects
a thrown error from the awaited `updateProgress` call, which the code
catches only at the outer handler: `failRun` runs and the error is
re-thrown. -/
def runDailyRoastGeneration (s : CronState)
    (nowPlaying popular : List MovieItem)
    (progressFailure : Option String) : CronState × RunOutcome :=
  match startRun s "movie_roast" with
  | (s0, Except.error _) => (s0, RunOutcome.skipped)
  | (s1, Except.ok runId) =>
      let movies := dedupMovies nowPlaying popular
      -- step 4: sendBatch of queue messages in chunks of 100 (no effect
      -- on the cron_runs table)
      match progressFailure with
      | some msg =>
          -- `await tracker.updateProgress(...)` throws: the outer catch
          -- calls failRun and re-throws
          (failRun s1 runId msg, RunOutcome.errored msg)
      | none =>
          let s2 :=
            if runId != 0 then
              updateProgress s1 runId (movies.map (·.title)) movies.length
            else s1
          let s3 := completeRun s2 runId none
          (s3, RunOutcome.success movies.length)

-- ===== reachable states of the roasts table =====

/-- States of the store reachable through the repository's statements, at
the granularity of individual SQL statements.  The `roasts` table is
written only by `deactivateOldRoasts`, the INSERT inside `upsertRoast`
(which always follows a deactivation — `deact` is the observable
intermediate state of `upsertRoast`), and `toggleRoastFeatured`; every
other statement in the repository leaves `roasts` unchanged (`other`). -/
inductive RoastReach : DB → Prop where
  | init : ∀ db, db.roasts = [] → RoastReach db
  | upsert : ∀ db movieId roast lang, RoastReach db →
      RoastReach (upsertRoast db movieId roast lang).1
  | deact : ∀ db movieId lang, RoastReach db →
      RoastReach (deactivateOldRoasts db movieId lang)
  | toggle : ∀ db roastId, RoastReach db →
      RoastReach (toggleRoastFeatured db roastId)
  | other : ∀ db db', RoastReach db → db'.roasts = db.roasts →
      RoastReach db'

-- ===== concrete instances used by witnesses and counterexamples =====

/-- A store with no roast rows (the initial state). -/
def exEmptyDB : DB :=
  { movies := [], categories := [], extractions := [], roasts := [],
    nextExtractionId := 1, nextRoastId := 1, clock := 50 }

/-- A well-populated evidence payload (one search result, an infobox). -/
def exEvidenceJson : Json :=
  Json.obj [("results", Json.arr [Json.obj [("title", Json.str "r1")]]),
            ("faq", Json.arr []),
            ("infobox", Json.obj [("long_desc", Json.str "x")])]

/-- A well-populated content payload (title and plot present). -/
def exContentJson : Json :=
  Json.obj [("title", Json.str "Movie (2024)"),
            ("plot", Json.obj [("summary", Json.str "s")])]

/-- An empty-but-present evidence payload: parses, fails the shape check. -/
def exEmptyEvidence : Json :=
  Json.obj [("results", Json.arr []), ("faq", Json.arr [])]

/-- An empty-but-present content payload: parses, fails the shape check. -/
def exEmptyContent : Json := Json.obj [("title", Json.str "")]

/-- A complete extraction record for movie 42. -/
def exComplete : DBExtraction :=
  { id := 1, movie_id := 42, source := "grok-extraction",
    model := "grok-4-1-fast-non-reasoning", fetched_at := 10,
    content_json := Column.value exContentJson,
    evidence_json := Column.value exEvidenceJson,
    citations_json := some ["https://e.example/1"], usage := ⟨3, 4, 7, 0⟩ }

/-- A record whose payloads are present but empty. -/
def exEmptyPayloads : DBExtraction :=
  { exComplete with content_json := Column.value exEmptyContent,
                    evidence_json := Column.value exEmptyEvidence }

/-- A partial record: valid evidence, missing content. -/
def exPartial : DBExtraction := { exComplete with content_json := Column.absent }

/-- A store whose latest (only) record for movie 42 is complete. -/
def exDB : DB :=
  { movies := [], categories := [], extractions := [exComplete], roasts := [],
    nextExtractionId := 2, nextRoastId := 1, clock := 100 }

/-- A store whose latest record for movie 42 has evidence but no content. -/
def exDBPartial : DB := { exDB with extractions := [exPartial] }

/-- Deterministic providers for witness runs. -/
def exProviders : Providers :=
  { braveEvidence := fun _ => exEvidenceJson,
    braveCitations := fun _ => ["https://e.example/2"],
    grokExtraction := fun _ => exContentJson,
    grokUsage := fun _ => ⟨1, 2, 3, 0⟩,
    generate := fun _ _ => Json.obj [("headline", Json.str "h")] }

/-- An active roast row for movie 7, language en. -/
def exRoast : DBRoast :=
  { id := 1, movie_id := 7, roast_json := Json.null, language := "en",
    created_at := 5, is_featured := 0, is_active := 1 }

/-- A store holding one active roast for (7, en). -/
def exRoastDB : DB :=
  { movies := [], categories := [], extractions := [], roasts := [exRoast],
    nextExtractionId := 1, nextRoastId := 2, clock := 50 }

/-- An empty cron_runs table. -/
def exCronEmpty : CronState := ⟨[], 1, 100⟩

/-- A running row for the movie_roast job. -/
def exRunningRow : CronRun :=
  { id := 1, job_name := "movie_roast", started_at := 90, finished_at := none,
    duration_ms := none, status := "running", cursor := none, error := none,
    movies_roasted_count := none, movie_titles := none }

/-- A cron_runs table with a running movie_roast row. -/
def exCronRunning : CronState := ⟨[exRunningRow], 2, 100⟩

-- =====================================================================
-- Theorems
-- =====================================================================

/-- Doc-level helper: an object value is truthy. Used when relating the
code's truthiness tests to the spec's presence tests. -/
theorem truthy_of_obj (fields : List (String × Json)) :
    (Json.obj fields).truthy = true := rfl

-- ===== shared lemmas for the validity classification =====

theorem optLenPos_eq_specArr (o : Option Json) (h : schemaArrOk o = true) :
    optLenPos o = specArrNonempty o := by
  match o with
  | none => rfl
  | some (Json.arr xs) => rfl
  | some Json.null => simp [schemaArrOk] at h
  | some (Json.bool b) => simp [schemaArrOk] at h
  | some (Json.num n) => simp [schemaArrOk] at h
  | some (Json.str s) => simp [schemaArrOk] at h
  | some (Json.obj f) => simp [schemaArrOk] at h

theorem optTruthy_eq_specObj (o : Option Json) (h : schemaObjOk o = true) :
    optTruthy o = specObjPresent o := by
  match o with
  | none => rfl
  | some (Json.obj f) => rfl
  | some Json.null => simp [schemaObjOk] at h
  | some (Json.bool b) => simp [schemaObjOk] at h
  | some (Json.num n) => simp [schemaObjOk] at h
  | some (Json.str s) => simp [schemaObjOk] at h
  | some (Json.arr xs) => simp [schemaObjOk] at h

theorem optTruthy_eq_specStr (o : Option Json) (h : schemaStrOk o = true) :
    optTruthy o = specNonemptyStr o := by
  match o with
  | none => rfl
  | some (Json.str t) => rfl
  | some Json.null => simp [schemaStrOk] at h
  | some (Json.bool b) => simp [schemaStrOk] at h
  | some (Json.num n) => simp [schemaStrOk] at h
  | some (Json.arr xs) => simp [schemaStrOk] at h
  | some (Json.obj f) => simp [schemaStrOk] at h

theorem specEvidenceShape_truthy (j : Json) (h : specEvidenceShape j = true) :
    j.truthy = true := by
  cases j <;>
    simp_all [specEvidenceShape, Json.getField, specArrNonempty, specObjPresent,
      Json.truthy]

theorem specContentShape_truthy (j : Json) (h : specContentShape j = true) :
    j.truthy = true := by
  cases j <;>
    simp_all [specContentShape, Json.getField, specNonemptyStr, specObjPresent,
      Json.truthy]

theorem code_eq_spec_evidence (j : Json) (hs : evidenceSchemaOk j = true) :
    (j.truthy &&
      (optLenPos (j.getField "results") || optLenPos (j.getField "faq") ||
        optTruthy (j.getField "infobox"))) = specEvidenceShape j := by
  obtain ⟨⟨h1, h2⟩, h3⟩ := by simpa [evidenceSchemaOk, Bool.and_eq_true] using hs
  rw [optLenPos_eq_specArr _ h1, optLenPos_eq_specArr _ h2,
    optTruthy_eq_specObj _ h3]
  change (j.truthy && specEvidenceShape j) = specEvidenceShape j
  cases hv : specEvidenceShape j with
  | true => rw [specEvidenceShape_truthy j hv]; rfl
  | false => simp

theorem code_eq_spec_content (j : Json) (hs : contentSchemaOk j = true) :
    (j.truthy &&
      (optTruthy (j.getField "title") || optTruthy (j.getField "plot") ||
        optTruthy (j.getField "reception"))) = specContentShape j := by
  obtain ⟨⟨h1, h2⟩, h3⟩ := by simpa [contentSchemaOk, Bool.and_eq_true] using hs
  rw [optTruthy_eq_specStr _ h1, optTruthy_eq_specObj _ h2,
    optTruthy_eq_specObj _ h3]
  change (j.truthy && specContentShape j) = specContentShape j
  cases hv : specContentShape j with
  | true => rw [specContentShape_truthy j hv]; rfl
  | false => simp

theorem hasValidEvidence_value (e : DBExtraction) (j : Json)
    (h : e.evidence_json = Column.value j) :
    hasValidEvidence (some e) =
      (j.truthy &&
        (optLenPos (j.getField "results") || optLenPos (j.getField "faq") ||
          optTruthy (j.getField "infobox"))) := by
  show evidenceColumnValid e.evidence_json = _
  rw [h]
  rfl

theorem hasValidContent_value (e : DBExtraction) (j : Json)
    (h : e.content_json = Column.value j) :
    hasValidContent (some e) =
      (j.truthy &&
        (optTruthy (j.getField "title") || optTruthy (j.getField "plot") ||
          optTruthy (j.getField "reception"))) := by
  show contentColumnValid e.content_json = _
  rw [h]
  rfl

/-- C6: the pipeline's validity classification inspects payload shape,
not mere presence.  For a stored payload that parses to a value of its
declared schema, `hasValidEvidence` agrees exactly with "has at least one
search result, at least one FAQ entry, or an infobox", and
`hasValidContent` with "has a title, a plot, or a reception section";
absent or unparseable payloads classify as invalid, and therefore a
record whose payloads are present but fail these shape checks is a
cache-miss on both counts. -/
theorem validity_classification_matches_shape (e : DBExtraction) :
    (∀ je, e.evidence_json = Column.value je → evidenceSchemaOk je = true →
        hasValidEvidence (some e) = specEvidenceShape je) ∧
    (∀ jc, e.content_json = Column.value jc → contentSchemaOk jc = true →
        hasValidContent (some e) = specContentShape jc) ∧
    ((e.evidence_json = Column.absent ∨ e.evidence_json = Column.malformed) →
        hasValidEvidence (some e) = false) ∧
    ((e.content_json = Column.absent ∨ e.content_json = Column.malformed) →
        hasValidContent (some e) = false) := by
  refine ⟨?_, ?_, ?_, ?_⟩
  · intro je hcol hs
    rw [hasValidEvidence_value e je hcol]
    exact code_eq_spec_evidence je hs
  · intro jc hcol hs
    rw [hasValidContent_value e jc hcol]
    exact code_eq_spec_content jc hs
  · rintro (hcol | hcol) <;>
      (show evidenceColumnValid e.evidence_json = false; rw [hcol]) <;> rfl
  · rintro (hcol | hcol) <;>
      (show contentColumnValid e.content_json = false; rw [hcol]) <;> rfl

/-- Witness for C6: on the record whose payloads are present but empty,
the classification (computed through the theorem) is a cache-miss on
both counts. -/
theorem validity_classification_matches_shape_witness :
    hasValidEvidence (some exEmptyPayloads) = false ∧
    hasValidContent (some exEmptyPayloads) = false := by
  constructor
  · have h := (validity_classification_matches_shape exEmptyPayloads).1
      exEmptyEvidence rfl rfl
    rw [h]; rfl
  · have h := (validity_classification_matches_shape exEmptyPayloads).2.1
      exEmptyContent rfl rfl
    rw [h]; rfl

-- ===== reduction lemmas for the four paths of getOrCreateTruth =====

theorem getOrCreateTruth_hit (P : Providers) (db : DB) (movieId : Nat)
    (e : DBExtraction) (hl : getLatestExtraction db movieId = some e)
    (hev : hasValidEvidence (some e) = true)
    (hct : hasValidContent (some e) = true) :
    getOrCreateTruth P db movieId =
      (buildMovieTruthFromExtraction e, db, Calls.zero) := by
  simp only [getOrCreateTruth, hl, hev, hct]
  rfl

theorem getOrCreateTruth_evidOnly (P : Providers) (db : DB) (movieId : Nat)
    (e : DBExtraction) (hl : getLatestExtraction db movieId = some e)
    (hev : hasValidEvidence (some e) = true)
    (hct : hasValidContent (some e) = false) :
    getOrCreateTruth P db movieId =
      ({ source := "grok-extraction", fetchedAt := db.clock,
         model := "grok-4-1-fast-non-reasoning",
         citations := e.citations_json.getD [],
         content := Column.value (P.grokExtraction e.evidence_json.parsed),
         usage := P.grokUsage e.evidence_json.parsed },
       (insertExtraction db movieId "grok-extraction"
          "grok-4-1-fast-non-reasoning" (P.grokExtraction e.evidence_json.parsed)
          e.evidence_json.parsed (e.citations_json.getD [])
          (P.grokUsage e.evidence_json.parsed)).1,
       ⟨0, 1, 0⟩) := by
  simp only [getOrCreateTruth, hl, hev, hct]
  rfl

theorem getOrCreateTruth_contOnly (P : Providers) (db : DB) (movieId : Nat)
    (e : DBExtraction) (hl : getLatestExtraction db movieId = some e)
    (hev : hasValidEvidence (some e) = false)
    (hct : hasValidContent (some e) = true) :
    getOrCreateTruth P db movieId =
      ({ source := "grok-extraction", fetchedAt := db.clock,
         model := "grok-4-1-fast-non-reasoning",
         citations := P.braveCitations movieId,
         content := Column.value e.content_json.parsed,
         usage := e.usage },
       (insertExtraction db movieId "grok-extraction"
          "grok-4-1-fast-non-reasoning" e.content_json.parsed
          (P.braveEvidence movieId) (P.braveCitations movieId) e.usage).1,
       ⟨1, 0, 0⟩) := by
  simp only [getOrCreateTruth, hl, hev, hct]
  rfl

theorem getOrCreateTruth_missBothSome (P : Providers) (db : DB) (movieId : Nat)
    (e : DBExtraction) (hl : getLatestExtraction db movieId = some e)
    (hev : hasValidEvidence (some e) = false)
    (hct : hasValidContent (some e) = false) :
    getOrCreateTruth P db movieId =
      ({ source := "grok-extraction", fetchedAt := db.clock,
         model := "grok-4-1-fast-non-reasoning",
         citations := P.braveCitations movieId,
         content := Column.value (P.grokExtraction (P.braveEvidence movieId)),
         usage := P.grokUsage (P.braveEvidence movieId) },
       (insertExtraction db movieId "grok-extraction"
          "grok-4-1-fast-non-reasoning"
          (P.grokExtraction (P.braveEvidence movieId))
          (P.braveEvidence movieId) (P.braveCitations movieId)
          (P.grokUsage (P.braveEvidence movieId))).1,
       ⟨1, 1, 0⟩) := by
  simp only [getOrCreateTruth, hl, hev, hct]
  rfl

theorem getOrCreateTruth_missNone (P : Providers) (db : DB) (movieId : Nat)
    (hl : getLatestExtraction db movieId = none) :
    getOrCreateTruth P db movieId =
      ({ source := "grok-extraction", fetchedAt := db.clock,
         model := "grok-4-1-fast-non-reasoning",
         citations := P.braveCitations movieId,
         content := Column.value (P.grokExtraction (P.braveEvidence movieId)),
         usage := P.grokUsage (P.braveEvidence movieId) },
       (insertExtraction db movieId "grok-extraction"
          "grok-4-1-fast-non-reasoning"
          (P.grokExtraction (P.braveEvidence movieId))
          (P.braveEvidence movieId) (P.braveCitations movieId)
          (P.grokUsage (P.braveEvidence movieId))).1,
       ⟨1, 1, 0⟩) := by
  simp only [getOrCreateTruth, hl, hasValidEvidence, hasValidContent]
  rfl

-- ===== column round-trip lemmas =====

theorem column_eq_value_parsed {c : Column} (h : evidenceColumnValid c = true) :
    c = Column.value c.parsed := by
  cases c with
  | absent => simp [evidenceColumnValid] at h
  | malformed => simp [evidenceColumnValid] at h
  | value j => rfl

theorem column_eq_value_parsed_content {c : Column}
    (h : contentColumnValid c = true) : c = Column.value c.parsed := by
  cases c with
  | absent => simp [contentColumnValid] at h
  | malformed => simp [contentColumnValid] at h
  | value j => rfl

/-- C3: for an item whose latest stored record is complete (valid evidence
and valid content), two consecutive `getOrCreateTruth` calls with no
intervening state change leave the store untouched, make zero
external-provider calls on both invocations (in particular the second),
and return identical Truth content. -/
theorem cache_idempotent (P : Providers) (db : DB) (movieId : Nat)
    (e : DBExtraction) (hl : getLatestExtraction db movieId = some e)
    (hev : hasValidEvidence (some e) = true)
    (hct : hasValidContent (some e) = true) :
    (getOrCreateTruth P db movieId).2.1 = db ∧
    (getOrCreateTruth P db movieId).2.2 = Calls.zero ∧
    (getOrCreateTruth P ((getOrCreateTruth P db movieId).2.1) movieId).2.2 =
      Calls.zero ∧
    (getOrCreateTruth P ((getOrCreateTruth P db movieId).2.1) movieId).1.content =
      (getOrCreateTruth P db movieId).1.content := by
  have h := getOrCreateTruth_hit P db movieId e hl hev hct
  have h21 : (getOrCreateTruth P db movieId).2.1 = db := by rw [h]
  refine ⟨h21, ?_, ?_, ?_⟩
  · rw [h]
  · rw [h21, h]
  · rw [h21, h]

/-- Witness for C3: on the concrete store holding a complete record for
movie 42, the second call makes zero provider calls and both calls return
the same content. -/
theorem cache_idempotent_witness :
    (getOrCreateTruth exProviders
        ((getOrCreateTruth exProviders exDB 42).2.1) 42).2.2 = Calls.zero ∧
    (getOrCreateTruth exProviders
        ((getOrCreateTruth exProviders exDB 42).2.1) 42).1.content =
      (getOrCreateTruth exProviders exDB 42).1.content := by
  have h := cache_idempotent exProviders exDB 42 exComplete rfl rfl rfl
  exact ⟨h.2.2.1, h.2.2.2⟩

/-- C5: for an item whose latest stored record has valid evidence but
invalid/empty content, one pipeline call invokes only the extraction
provider (no Brave call, one Grok call) and the newly persisted record
carries the prior record's evidence payload unchanged. -/
theorem partial_resume (P : Providers) (db : DB) (movieId : Nat)
    (e : DBExtraction) (hl : getLatestExtraction db movieId = some e)
    (hev : hasValidEvidence (some e) = true)
    (hct : hasValidContent (some e) = false) :
    (getOrCreateTruth P db movieId).2.2.brave = 0 ∧
    (getOrCreateTruth P db movieId).2.2.grok = 1 ∧
    ∃ rec, ((getOrCreateTruth P db movieId).2.1).extractions =
        rec :: db.extractions ∧
      rec.evidence_json = e.evidence_json := by
  have h := getOrCreateTruth_evidOnly P db movieId e hl hev hct
  refine ⟨?_, ?_, ?_⟩
  · rw [h]
  · rw [h]
  · rw [h]
    exact ⟨_, rfl, (column_eq_value_parsed hev).symm⟩

/-- Witness for C5: on the concrete store whose latest record for movie
42 has evidence but an absent content payload, the call makes no Brave
call and one Grok call. -/
theorem partial_resume_witness :
    (getOrCreateTruth exProviders exDBPartial 42).2.2.brave = 0 ∧
    (getOrCreateTruth exProviders exDBPartial 42).2.2.grok = 1 := by
  have h := partial_resume exProviders exDBPartial 42 exPartial rfl rfl rfl
  exact ⟨h.1, h.2.1⟩

/-- C7: when the latest stored record classifies as having both valid
evidence and valid content, `getOrCreateTruth` persists nothing;
otherwise it persists exactly one new record for the item, which reuses
the stored payloads that were classified valid and carries freshly
fetched values for the rest. -/
theorem persist_exactly_once (P : Providers) (db : DB) (movieId : Nat) :
    (hasValidEvidence (getLatestExtraction db movieId) = true →
     hasValidContent (getLatestExtraction db movieId) = true →
     (getOrCreateTruth P db movieId).2.1 = db) ∧
    (hasValidEvidence (getLatestExtraction db movieId) = false ∨
     hasValidContent (getLatestExtraction db movieId) = false →
     ∃ rec, ((getOrCreateTruth P db movieId).2.1).extractions =
         rec :: db.extractions ∧
       rec.movie_id = movieId ∧
       (∀ e, getLatestExtraction db movieId = some e →
          hasValidEvidence (some e) = true →
          rec.evidence_json = e.evidence_json) ∧
       (∀ e, getLatestExtraction db movieId = some e →
          hasValidContent (some e) = true →
          rec.content_json = e.content_json) ∧
       (hasValidEvidence (getLatestExtraction db movieId) = false →
          rec.evidence_json = Column.value (P.braveEvidence movieId)) ∧
       (hasValidContent (getLatestExtraction db movieId) = false →
          rec.content_json =
            Column.value (P.grokExtraction rec.evidence_json.parsed))) := by
  cases hl : getLatestExtraction db movieId with
  | none =>
      refine ⟨?_, ?_⟩
      · intro hev _
        simp [hasValidEvidence] at hev
      · intro _
        rw [getOrCreateTruth_missNone P db movieId hl]
        refine ⟨_, rfl, rfl, ?_, ?_, ?_, ?_⟩
        · intro e' he'
          exact Option.noConfusion he'
        · intro e' he'
          exact Option.noConfusion he'
        · intro _
          rfl
        · intro _
          rfl
  | some e =>
      cases hev : hasValidEvidence (some e) with
      | true =>
          cases hct : hasValidContent (some e) with
          | true =>
              refine ⟨?_, ?_⟩
              · intro _ _
                rw [getOrCreateTruth_hit P db movieId e hl hev hct]
              · rintro (hf | hf) <;> exact Bool.noConfusion hf
          | false =>
              refine ⟨?_, ?_⟩
              · intro _ hctT
                exact Bool.noConfusion hctT
              · intro _
                rw [getOrCreateTruth_evidOnly P db movieId e hl hev hct]
                refine ⟨_, rfl, rfl, ?_, ?_, ?_, ?_⟩
                · intro e' he' _
                  injection he' with hee
                  subst hee
                  exact (column_eq_value_parsed hev).symm
                · intro e' he' hcc
                  injection he' with hee
                  subst hee
                  rw [hct] at hcc
                  exact Bool.noConfusion hcc
                · intro hf
                  exact Bool.noConfusion hf
                · intro _
                  rfl
      | false =>
          cases hct : hasValidContent (some e) with
          | true =>
              refine ⟨?_, ?_⟩
              · intro hevT _
                exact Bool.noConfusion hevT
              · intro _
                rw [getOrCreateTruth_contOnly P db movieId e hl hev hct]
                refine ⟨_, rfl, rfl, ?_, ?_, ?_, ?_⟩
                · intro e' he' hee'
                  injection he' with hee
                  subst hee
                  rw [hev] at hee'
                  exact Bool.noConfusion hee'
                · intro e' he' _
                  injection he' with hee
                  subst hee
                  exact (column_eq_value_parsed_content hct).symm
                · intro _
                  rfl
                · intro hf
                  exact Bool.noConfusion hf
          | false =>
              refine ⟨?_, ?_⟩
              · intro hevT _
                exact Bool.noConfusion hevT
              · intro _
                rw [getOrCreateTruth_missBothSome P db movieId e hl hev hct]
                refine ⟨_, rfl, rfl, ?_, ?_, ?_, ?_⟩
                · intro e' he' hee'
                  injection he' with hee
                  subst hee
                  rw [hev] at hee'
                  exact Bool.noConfusion hee'
                · intro e' he' hcc
                  injection he' with hee
                  subst hee
                  rw [hct] at hcc
                  exact Bool.noConfusion hcc
                · intro _
                  rfl
                · intro _
                  rfl

/-- Witness for C7: the complete record of `exDB` triggers the no-persist
branch, and the incomplete record of `exDBPartial` triggers the
one-record persist. -/
theorem persist_exactly_once_witness :
    (getOrCreateTruth exProviders exDB 42).2.1 = exDB ∧
    ∃ rec, ((getOrCreateTruth exProviders exDBPartial 42).2.1).extractions =
      rec :: exDBPartial.extractions := by
  constructor
  · exact (persist_exactly_once exProviders exDB 42).1 rfl rfl
  · obtain ⟨rec, h1, -⟩ :=
      (persist_exactly_once exProviders exDBPartial 42).2 (Or.inr rfl)
    exact ⟨rec, h1⟩

-- ===== active-count lemmas for the roasts table =====

theorem isActiveFor_deact_imp (movieId : Nat) (lang : String)
    (movieId' : Nat) (lang' : String) (r : DBRoast)
    (h : isActiveFor movieId' lang'
      (if isActiveFor movieId lang r then { r with is_active := 0 } else r) = true) :
    isActiveFor movieId' lang' r = true := by
  by_cases hr : isActiveFor movieId lang r
  · rw [if_pos hr] at h
    simp [isActiveFor] at h
  · rwa [if_neg hr] at h

theorem length_filter_map_le (p : DBRoast → Bool) (f : DBRoast → DBRoast)
    (hp : ∀ r, p (f r) = true → p r = true) (rs : List DBRoast) :
    ((rs.map f).filter p).length ≤ (rs.filter p).length := by
  induction rs with
  | nil => exact Nat.le_refl 0
  | cons r rs ih =>
      by_cases h : p (f r) = true
      · have hr := hp r h
        simp only [List.map_cons, List.filter_cons, h, hr, if_true,
          List.length_cons]
        omega
      · by_cases hr : p r = true
        · simp only [List.map_cons, List.filter_cons, h, hr, if_true,
            if_false, Bool.false_eq_true, List.length_cons]
          omega
        · simp only [List.map_cons, List.filter_cons, h, hr,
            Bool.false_eq_true, if_false]
          exact ih

theorem length_filter_map_congr (p : DBRoast → Bool) (f : DBRoast → DBRoast)
    (hp : ∀ r, p (f r) = p r) (rs : List DBRoast) :
    ((rs.map f).filter p).length = (rs.filter p).length := by
  induction rs with
  | nil => rfl
  | cons r rs ih =>
      by_cases h : p r = true
      · simp only [List.map_cons, List.filter_cons, hp, h, if_true,
          List.length_cons, ih]
      · simp only [List.map_cons, List.filter_cons, hp, h,
          Bool.false_eq_true, if_false, ih]

theorem filter_deact_self (movieId : Nat) (lang : String) (rs : List DBRoast) :
    ((rs.map (fun r =>
        if isActiveFor movieId lang r then { r with is_active := 0 } else r)).filter
      (isActiveFor movieId lang)) = [] := by
  induction rs with
  | nil => rfl
  | cons r rs ih =>
      by_cases hr : isActiveFor movieId lang r
      · simp only [List.map_cons, if_pos hr, List.filter_cons]
        have : isActiveFor movieId lang { r with is_active := 0 } = false := by
          simp [isActiveFor]
        simp [this, ih]
      · simp only [List.map_cons, if_neg hr, List.filter_cons]
        simp only [Bool.not_eq_true] at hr
        simp [hr, ih]

theorem activeCount_deactivate_self (db : DB) (movieId : Nat) (lang : String) :
    activeCount (deactivateOldRoasts db movieId lang) movieId lang = 0 := by
  unfold activeCount deactivateOldRoasts
  simp [filter_deact_self]

theorem activeCount_deactivate_le (db : DB) (movieId : Nat) (lang : String)
    (movieId' : Nat) (lang' : String) :
    activeCount (deactivateOldRoasts db movieId lang) movieId' lang' ≤
      activeCount db movieId' lang' := by
  unfold activeCount deactivateOldRoasts
  exact length_filter_map_le _ _ (isActiveFor_deact_imp movieId lang movieId' lang')
    db.roasts

theorem activeCount_insert (db : DB) (movieId : Nat) (roast : Json)
    (lang : String) (movieId' : Nat) (lang' : String) :
    activeCount (insertActiveRoast db movieId roast lang).1 movieId' lang' =
      activeCount db movieId' lang' +
        (if movieId == movieId' && lang == lang' then 1 else 0) := by
  unfold activeCount insertActiveRoast
  by_cases hc : (movieId == movieId' && lang == lang') = true
  · have hrow : isActiveFor movieId' lang'
        { id := db.nextRoastId, movie_id := movieId, roast_json := roast,
          language := lang, created_at := db.clock, is_featured := 0,
          is_active := 1 } = true := by
      simp only [Bool.and_eq_true] at hc
      simp [isActiveFor, hc.1, hc.2]
    simp [List.filter_cons, hrow, hc]
  · simp only [Bool.not_eq_true] at hc
    have hrow : isActiveFor movieId' lang'
        { id := db.nextRoastId, movie_id := movieId, roast_json := roast,
          language := lang, created_at := db.clock, is_featured := 0,
          is_active := 1 } = false := by
      simp only [isActiveFor]
      simpa using hc
    simp [List.filter_cons, hrow, hc]

theorem activeCount_toggle (db : DB) (roastId : Nat) (movieId : Nat)
    (lang : String) :
    activeCount (toggleRoastFeatured db roastId) movieId lang =
      activeCount db movieId lang := by
  unfold activeCount toggleRoastFeatured
  refine length_filter_map_congr _ _ (fun r => ?_) db.roasts
  by_cases h : r.id == roastId
  · simp [h, isActiveFor]
  · simp [h]

theorem activeCount_congr {db db' : DB} (h : db'.roasts = db.roasts)
    (movieId : Nat) (lang : String) :
    activeCount db' movieId lang = activeCount db movieId lang := by
  unfold activeCount
  rw [h]

theorem upsert_active_exact (db : DB) (movieId : Nat) (roast : Json)
    (lang : String) :
    (upsertRoast db movieId roast lang).1.roasts.filter
        (isActiveFor movieId lang) =
      [{ id := db.nextRoastId, movie_id := movieId, roast_json := roast,
         language := lang, created_at := db.clock, is_featured := 0,
         is_active := 1 }] := by
  unfold upsertRoast insertActiveRoast deactivateOldRoasts
  have hrow : isActiveFor movieId lang
      { id := db.nextRoastId, movie_id := movieId, roast_json := roast,
        language := lang, created_at := db.clock, is_featured := 0,
        is_active := 1 } = true := by
    simp [isActiveFor]
  simp [List.filter_cons, hrow, filter_deact_self]

theorem reach_activeCount_le_one {db : DB} (h : RoastReach db) :
    ∀ movieId lang, activeCount db movieId lang ≤ 1 := by
  induction h with
  | init db hro =>
      intro movieId lang
      unfold activeCount
      rw [hro]
      simp
  | upsert db movieId roast lang hr ih =>
      intro movieId' lang'
      unfold upsertRoast
      rw [activeCount_insert]
      by_cases hc : (movieId == movieId' && lang == lang') = true
      · simp only [Bool.and_eq_true, beq_iff_eq] at hc
        obtain ⟨h1, h2⟩ := hc
        subst h1
        subst h2
        rw [activeCount_deactivate_self]
        simp
      · rw [if_neg hc]
        have hle := activeCount_deactivate_le db movieId lang movieId' lang'
        have hone := ih movieId' lang'
        omega
  | deact db movieId lang hr ih =>
      intro movieId' lang'
      exact le_trans (activeCount_deactivate_le db movieId lang movieId' lang')
        (ih movieId' lang')
  | toggle db roastId hr ih =>
      intro movieId lang
      rw [activeCount_toggle]
      exact ih movieId lang
  | other db db' hr heq ih =>
      intro movieId lang
      rw [activeCount_congr heq]
      exact ih movieId lang

/-- C1: in every reachable state, each (movie id, language) pair has at
most one active roast row, and immediately after any successful
`upsertRoast` for a pair the pair has exactly one active row — the row
whose id the insert just returned. -/
theorem active_roast_invariant (db : DB) (h : RoastReach db) :
    (∀ movieId lang, activeCount db movieId lang ≤ 1) ∧
    (∀ movieId roast lang,
       activeCount (upsertRoast db movieId roast lang).1 movieId lang = 1 ∧
       ((upsertRoast db movieId roast lang).1.roasts.filter
           (isActiveFor movieId lang)).map (fun r => r.id) =
         [(upsertRoast db movieId roast lang).2]) := by
  refine ⟨reach_activeCount_le_one h, ?_⟩
  intro movieId roast lang
  constructor
  · unfold activeCount
    rw [upsert_active_exact]
    rfl
  · rw [upsert_active_exact]
    rfl

/-- Witness for C1: from the reachable empty store, the bound holds and
an upsert leaves exactly one active row for (7, en). -/
theorem active_roast_invariant_witness :
    activeCount exEmptyDB 7 "en" ≤ 1 ∧
    activeCount (upsertRoast exEmptyDB 7 Json.null "en").1 7 "en" = 1 := by
  have h := active_roast_invariant exEmptyDB (RoastReach.init exEmptyDB rfl)
  exact ⟨h.1 7 "en", (h.2 7 Json.null "en").1⟩

/-- Counterexample to C4: `upsertRoast` is two sequential statements, not
one atomic unit.  Starting from a store where (7, en) has one active
row, the execution factors through the state produced by the separate
deactivation statement, and in that intermediate observable state the
pair has zero active rows. -/
theorem upsert_not_atomic_counterexample :
    activeCount exRoastDB 7 "en" = 1 ∧
    upsertRoast exRoastDB 7 Json.null "en" =
      insertActiveRoast (deactivateOldRoasts exRoastDB 7 "en") 7 Json.null "en" ∧
    activeCount (deactivateOldRoasts exRoastDB 7 "en") 7 "en" = 0 := by
  exact ⟨rfl, rfl, rfl⟩

/-- C4 amended: `upsertRoast` performs the deactivation and the insertion
as two separate sequential statements (not one batched write); the
intermediate state between them has zero active rows for the pair, never
two, and after completion the pair has exactly one active row. -/
theorem upsert_two_statements (db : DB) (movieId : Nat) (roast : Json)
    (lang : String) :
    upsertRoast db movieId roast lang =
      insertActiveRoast (deactivateOldRoasts db movieId lang) movieId roast lang ∧
    activeCount (deactivateOldRoasts db movieId lang) movieId lang = 0 ∧
    activeCount (upsertRoast db movieId roast lang).1 movieId lang = 1 := by
  refine ⟨rfl, activeCount_deactivate_self db movieId lang, ?_⟩
  unfold activeCount
  rw [upsert_active_exact]
  rfl

/-- C2: calling `startRun` while a running row exists for the job name
raises the AlreadyRunning error and inserts no row; when no running row
exists it inserts exactly one new running row and returns its id. -/
theorem startRun_lock (s : CronState) (jobName : String) :
    (hasRunningRow s jobName = true →
       startRun s jobName =
         (s, Except.error ("Job '" ++ jobName ++ "' is already running"))) ∧
    (hasRunningRow s jobName = false →
       (startRun s jobName).2 = Except.ok s.nextRunId ∧
       ∃ row, (startRun s jobName).1.runs = row :: s.runs ∧
         row.id = s.nextRunId ∧ row.job_name = jobName ∧
         row.status = "running") := by
  constructor
  · intro h
    unfold startRun
    rw [if_pos h]
  · intro h
    unfold startRun
    rw [if_neg (by simp [h])]
    exact ⟨rfl, ⟨_, rfl, rfl, rfl, rfl⟩⟩

/-- Witness for C2: with a running movie_roast row the call errors and
leaves the table unchanged; on the empty table it returns run id 1. -/
theorem startRun_lock_witness :
    startRun exCronRunning "movie_roast" =
      (exCronRunning,
        Except.error ("Job '" ++ "movie_roast" ++ "' is already running")) ∧
    (startRun exCronEmpty "movie_roast").2 = Except.ok 1 := by
  refine ⟨(startRun_lock exCronRunning "movie_roast").1 rfl, ?_⟩
  exact ((startRun_lock exCronEmpty "movie_roast").2 rfl).1

/-- Counterexample to C9: in the queue-based `runDailyRoastGeneration`,
a thrown `updateProgress` error after the lock is acquired is caught only
by the outer handler, which records the run as failed with that error and
re-raises it — the run does not proceed.  Concretely, on the empty table
with one fetched movie and an injected progress failure "boom", the
outcome is the propagated error and run 1 ends with status "failed" and
error "boom". -/
theorem progress_failure_aborts_run_counterexample :
    (runDailyRoastGeneration exCronEmpty [⟨1, "A"⟩] [] (some "boom")).2 =
      RunOutcome.errored "boom" ∧
    (findRun (runDailyRoastGeneration exCronEmpty [⟨1, "A"⟩] []
        (some "boom")).1 1).map (fun r => (r.status, r.error)) =
      some ("failed", some "boom") := by
  exact ⟨rfl, rfl⟩

/-- C9 amended: a failure of `updateProgress` during an orchestration run
does abort the run: whenever the lock is acquired and the awaited
`updateProgress` call throws, the outer catch records the run as failed
with that error (via `failRun`) and the error propagates. -/
theorem progress_failure_fails_run (s : CronState)
    (nowPlaying popular : List MovieItem) (msg : String)
    (h : hasRunningRow s "movie_roast" = false) :
    (runDailyRoastGeneration s nowPlaying popular (some msg)).2 =
      RunOutcome.errored msg ∧
    ((runDailyRoastGeneration s nowPlaying popular (some msg)).1.runs.head?.map
        (fun r => (r.id, r.status, r.error))) =
      some (s.nextRunId, "failed", some msg) := by
  have hs : startRun s "movie_roast" =
      ({ runs :=
          { id := s.nextRunId, job_name := "movie_roast",
            started_at := s.clock, finished_at := none, duration_ms := none,
            status := "running", cursor := none, error := none,
            movies_roasted_count := none, movie_titles := none } :: s.runs,
         nextRunId := s.nextRunId + 1, clock := s.clock + 1 },
       Except.ok s.nextRunId) := by
    unfold startRun
    rw [if_neg (by simp [h])]
  constructor
  · unfold runDailyRoastGeneration
    rw [hs]
  · unfold runDailyRoastGeneration
    rw [hs]
    unfold failRun
    simp

/-- Witness for the amended C9 on concrete inputs. -/
theorem progress_failure_fails_run_witness :
    ((runDailyRoastGeneration exCronEmpty [⟨1, "A"⟩] []
        (some "boom")).1.runs.head?.map
      (fun r => (r.id, r.status, r.error))) =
      some (1, "failed", some "boom") :=
  (progress_failure_fails_run exCronEmpty [⟨1, "A"⟩] [] "boom" rfl).2

-- ===== queue-consumer lemmas =====

theorem getOrCreateTruth_generation_zero (P : Providers) (db : DB)
    (movieId : Nat) :
    (getOrCreateTruth P db movieId).2.2.generation = 0 := by
  cases hl : getLatestExtraction db movieId with
  | none => rw [getOrCreateTruth_missNone P db movieId hl]
  | some e =>
      cases hev : hasValidEvidence (some e) with
      | true =>
          cases hct : hasValidContent (some e) with
          | true => rw [getOrCreateTruth_hit P db movieId e hl hev hct]; rfl
          | false => rw [getOrCreateTruth_evidOnly P db movieId e hl hev hct]
      | false =>
          cases hct : hasValidContent (some e) with
          | true => rw [getOrCreateTruth_contOnly P db movieId e hl hev hct]
          | false => rw [getOrCreateTruth_missBothSome P db movieId e hl hev hct]

theorem getActiveRoast_none_of_noActive (db : DB) (movieId : Nat)
    (h : hasAnyActiveRoast db movieId = false) :
    getActiveRoast db movieId "en" = none := by
  unfold getActiveRoast
  cases hf : db.roasts.find? (isActiveFor movieId "en") with
  | none => rfl
  | some r =>
      have hr := List.find?_some hf
      have hmem := List.mem_of_find?_eq_some hf
      unfold hasAnyActiveRoast at h
      rw [List.any_eq_false] at h
      unfold isActiveFor at hr
      simp only [Bool.and_eq_true] at hr
      obtain ⟨⟨h1, _⟩, h3⟩ := hr
      exact absurd (by simp [h1, h3] :
        (r.movie_id == movieId && r.is_active == 1) = true)
        (by simpa using h r hmem)

theorem hasAnyActiveRoast_upsert (db : DB) (movieId : Nat) (roast : Json)
    (lang : String) :
    hasAnyActiveRoast (upsertRoast db movieId roast lang).1 movieId = true := by
  unfold hasAnyActiveRoast upsertRoast insertActiveRoast
  simp

theorem handleMovieRoast_noActive (P : Providers) (db : DB) (m : MovieItem)
    (h : hasAnyActiveRoast db m.id = false) :
    (handleMovieRoast P db m).2.generation = 1 ∧
    hasAnyActiveRoast (handleMovieRoast P db m).1 m.id = true := by
  have hnone := getActiveRoast_none_of_noActive db m.id h
  constructor
  · show (handleMovieRoast P db m).2.generation = 1
    simp only [handleMovieRoast, hnone]
    rw [getOrCreateTruth_generation_zero]
  · simp only [handleMovieRoast, hnone]
    exact hasAnyActiveRoast_upsert _ m.id _ "en"

/-- C8: a message whose movie already has an active roast row is
acknowledged with no store change and no provider call; a message without
one runs the pipeline exactly once, so a redelivery of the same message
after a successful first delivery acknowledges without another
generation-provider call — one generation call in total. -/
theorem queue_dedup (P : Providers) (db : DB) (m : MovieItem) :
    (hasAnyActiveRoast db m.id = true →
       processQueueMessage P db m = (db, Calls.zero, true)) ∧
    (hasAnyActiveRoast db m.id = false →
       (processQueueMessage P db m).2.1.generation = 1 ∧
       (processQueueMessage P ((processQueueMessage P db m).1) m).2.1.generation
         = 0 ∧
       (processQueueMessage P ((processQueueMessage P db m).1) m).1 =
         (processQueueMessage P db m).1 ∧
       (processQueueMessage P ((processQueueMessage P db m).1) m).2.2 = true) := by
  have hpos : ∀ db2 : DB, hasAnyActiveRoast db2 m.id = true →
      processQueueMessage P db2 m = (db2, Calls.zero, true) := by
    intro db2 hh
    unfold processQueueMessage
    rw [if_pos hh]
  constructor
  · exact hpos db
  · intro h
    have hm := handleMovieRoast_noActive P db m h
    have h1 : processQueueMessage P db m =
        ((handleMovieRoast P db m).1, (handleMovieRoast P db m).2, true) := by
      unfold processQueueMessage
      rw [if_neg (by simp [h])]
    have h2 : hasAnyActiveRoast (processQueueMessage P db m).1 m.id = true := by
      rw [h1]
      exact hm.2
    refine ⟨?_, ?_, ?_, ?_⟩
    · rw [h1]
      exact hm.1
    · rw [hpos _ h2]
      rfl
    · rw [hpos _ h2]
    · rw [hpos _ h2]

/-- Witness for C8: movie 7 (active roast present) is acked untouched;
movie 42 on the empty store generates once, and its redelivery generates
zero times. -/
theorem queue_dedup_witness :
    processQueueMessage exProviders exRoastDB ⟨7, "M"⟩ =
      (exRoastDB, Calls.zero, true) ∧
    (processQueueMessage exProviders exEmptyDB ⟨42, "M"⟩).2.1.generation = 1 ∧
    (processQueueMessage exProviders
        ((processQueueMessage exProviders exEmptyDB ⟨42, "M"⟩).1)
        ⟨42, "M"⟩).2.1.generation = 0 := by
  refine ⟨(queue_dedup exProviders exRoastDB ⟨7, "M"⟩).1 rfl, ?_, ?_⟩
  · exact ((queue_dedup exProviders exEmptyDB ⟨42, "M"⟩).2 rfl).1
  · exact ((queue_dedup exProviders exEmptyDB ⟨42, "M"⟩).2 rfl).2.1

-- ===== category-membership lemmas =====

theorem mem_categoryMembers (rows : List CatRow) (i : Nat) (cat : String) :
    i ∈ categoryMembers rows cat ↔
      ∃ r ∈ rows, r.movie_id = i ∧ r.category = cat := by
  unfold categoryMembers
  simp only [List.mem_map, List.mem_filter, beq_iff_eq]
  constructor
  · rintro ⟨r, ⟨hm, hc⟩, hi⟩
    exact ⟨r, hm, hi, hc⟩
  · rintro ⟨r, hm, hi, hc⟩
    exact ⟨r, ⟨hm, hc⟩, hi⟩

theorem mem_insertOrIgnoreCategory (rows : List CatRow) (x i : Nat)
    (cat : String) (now : Nat) :
    i ∈ categoryMembers (insertOrIgnoreCategory rows x cat now) cat ↔
      i ∈ categoryMembers rows cat ∨ i = x := by
  unfold insertOrIgnoreCategory
  by_cases hex : rows.any (fun r => r.movie_id == x && r.category == cat) = true
  · rw [if_pos hex]
    constructor
    · exact Or.inl
    · rintro (h | h)
      · exact h
      · subst h
        rw [mem_categoryMembers]
        rcases List.any_eq_true.mp hex with ⟨r, hm, hr⟩
        simp only [Bool.and_eq_true, beq_iff_eq] at hr
        exact ⟨r, hm, hr.1, hr.2⟩
  · rw [if_neg hex]
    rw [mem_categoryMembers, mem_categoryMembers]
    constructor
    · rintro ⟨r, hm, hi, hc⟩
      rcases List.mem_append.mp hm with hm' | hm'
      · exact Or.inl ⟨r, hm', hi, hc⟩
      · rcases List.mem_singleton.mp hm' with rfl
        exact Or.inr hi.symm
    · rintro (⟨r, hm, hi, hc⟩ | rfl)
      · exact ⟨r, List.mem_append_left _ hm, hi, hc⟩
      · exact ⟨⟨i, cat, now⟩,
          List.mem_append_right _ (List.mem_singleton_self _), rfl, rfl⟩

theorem mem_foldl_insertCat (ids : List Nat) (rows : List CatRow)
    (cat : String) (now : Nat) (i : Nat) :
    i ∈ categoryMembers
        (ids.foldl (fun acc x => insertOrIgnoreCategory acc x cat now) rows)
        cat ↔
      i ∈ categoryMembers rows cat ∨ i ∈ ids := by
  induction ids generalizing rows with
  | nil => simp
  | cons x ids ih =>
      rw [List.foldl_cons, ih]
      rw [mem_insertOrIgnoreCategory]
      constructor
      · rintro ((h | h) | h)
        · exact Or.inl h
        · exact Or.inr (h ▸ List.mem_cons_self x ids)
        · exact Or.inr (List.mem_cons_of_mem x h)
      · rintro (h | h)
        · exact Or.inl (Or.inl h)
        · rcases List.mem_cons.mp h with rfl | h'
          · exact Or.inl (Or.inr rfl)
          · exact Or.inr h'

theorem categoryMembers_cleared (rows : List CatRow) (cat : String) (i : Nat) :
    ¬ i ∈ categoryMembers (rows.filter (fun r => !(r.category == cat))) cat := by
  rw [mem_categoryMembers]
  rintro ⟨r, hm, _, hc⟩
  have hr := (List.mem_filter.mp hm).2
  simp [hc] at hr

theorem mem_refreshCategoryBatch (rows : List CatRow) (cat : String)
    (ids : List Nat) (now : Nat) (i : Nat) :
    i ∈ categoryMembers (refreshCategoryBatch rows cat ids now) cat ↔
      i ∈ ids := by
  unfold refreshCategoryBatch
  rw [mem_foldl_insertCat]
  constructor
  · rintro (h | h)
    · exact absurd h (categoryMembers_cleared rows cat i)
    · exact h
  · exact Or.inr

/-- C10: `handleNowPlaying` replaces the now_playing membership in one
atomic `db.batch` (the delete and inserts are the single
`refreshCategoryBatch` transition), and afterwards the membership is
exactly the set of fetched item ids, regardless of the prior contents of
the table. -/
theorem category_refresh_exact (db : DB) (fetched : List MovieItem) (i : Nat) :
    (handleNowPlaying db fetched).categories =
      refreshCategoryBatch
        ((fetched.foldl (fun d m => upsertMovie d m) db).categories)
        "now_playing" (fetched.map (fun m => m.id))
        ((fetched.foldl (fun d m => upsertMovie d m) db).clock) ∧
    (i ∈ categoryMembers (handleNowPlaying db fetched).categories
        "now_playing" ↔
      i ∈ fetched.map (fun m => m.id)) := by
  refine ⟨rfl, ?_⟩
  exact mem_refreshCategoryBatch _ "now_playing" _ _ i
